import Mathlib

/-!
# war_room: the scoring and policy utilities

A shallow embedding of `frontend/src/utils/FeasibilityCalculator.js` and
`frontend/src/utils/SafetyChecks.js`, followed by the properties of
`calculateFeasibility`, `checkROECompliance` and `governResponse`.

## Conventions of the embedding

* A JavaScript number is a `JSNum`: either `NaN` or a finite value, held as an exact
  rational; the literals `0.4` and `90/60` are the rationals `4/10` and `3/2`. The
  rounding of IEEE-754 double arithmetic, the two infinities and the negative zero
  are not modelled. On the integer inputs of the data model every intermediate value
  of the functions below is a multiple of `1/5`, far from a rounding tie, so the
  exact value and the double agree after `Math.round`.
* A JavaScript string is a Lean `String`; `includes` is substring search on the
  characters. `toLowerCase` maps the ASCII capitals only, which decides the search
  for the ASCII needle `windows` exactly as the Unicode mapping does.
* An absent property reads as `undefined` and is an `Option` field holding `none`.
  An absent argument object is `none` too, and reading a property of it throws.
* A thrown exception is `Except.error`; `console.warn` output is returned next to
  the value as the list of emitted messages.
* The module-level object `ROE_RULES` is read at call time by `checkROECompliance`;
  the embedding passes the object read as an explicit first argument.
* The functions are embedded twice. The first embedding takes a `Target` whose
  present properties have the types of the data model (numbers, strings, arrays).
  The second, in the namespace `Untyped`, takes any primitive value as an argument
  and as a property, with the coercions and the `TypeError`s of the language; the
  two agree on the targets of the data model (`untyped_calculateFeasibility_embed`,
  `untyped_checkROECompliance_embed`, `untyped_governResponse_embed`). Objects other
  than the target itself and the two arrays of a target are not modelled.
-/

namespace WarRoom

/-! ## JavaScript values -/

/-- A JavaScript number: `NaN`, or a finite value kept as an exact rational. -/
inductive JSNum where
  | nan
  | fin (q : ℚ)
  deriving DecidableEq

/-- The primitive values an argument or a property can hold. A symbol carries no
data: the code never compares two of them. -/
inductive JSVal where
  | undefined
  | null
  | bool (b : Bool)
  | num (n : JSNum)
  | str (s : String)
  | symbol
  | bigint (z : ℤ)
  deriving DecidableEq

/-- The exceptions the modelled code can throw. -/
inductive JSError where
  | typeError
  deriving DecidableEq

namespace JSNum

/-- The operator `a + b` on numbers. -/
def add : JSNum → JSNum → JSNum
  | fin a, fin b => fin (a + b)
  | _, _ => nan

/-- The operator `a - b` on numbers. -/
def sub : JSNum → JSNum → JSNum
  | fin a, fin b => fin (a - b)
  | _, _ => nan

/-- The operator `a * b` on numbers. -/
def mul : JSNum → JSNum → JSNum
  | fin a, fin b => fin (a * b)
  | _, _ => nan

/-- The operator `a / b` on numbers; a zero divisor is outside the finite values. -/
def div : JSNum → JSNum → JSNum
  | fin a, fin b => if b = 0 then nan else fin (a / b)
  | _, _ => nan

/-- The operator `a < b`: false as soon as one side is `NaN`. -/
def lt : JSNum → JSNum → Bool
  | fin a, fin b => decide (a < b)
  | _, _ => false

/-- The operator `a > b`: false as soon as one side is `NaN`. -/
def gt (a b : JSNum) : Bool := lt b a

/-- Truthiness of a number: `0` and `NaN` are falsy. -/
def truthy : JSNum → Bool
  | fin q => decide (q ≠ 0)
  | nan => false

end JSNum

/-- The function `Math.abs`. -/
def mathAbs : JSNum → JSNum
  | .fin q => .fin |q|
  | .nan => .nan

/-- The function `Math.min` of two arguments: `NaN` if either is. -/
def mathMin : JSNum → JSNum → JSNum
  | .fin a, .fin b => .fin (min a b)
  | _, _ => .nan

/-- The function `Math.max` of two arguments: `NaN` if either is. -/
def mathMax : JSNum → JSNum → JSNum
  | .fin a, .fin b => .fin (max a b)
  | _, _ => .nan

/-- The function `Math.min` of three arguments. -/
def mathMin3 (a b c : JSNum) : JSNum := mathMin (mathMin a b) c

/-- The function `Math.round`: the nearest integer, a tie going towards `+∞`. -/
def mathRound : JSNum → JSNum
  | .fin q => .fin (⌊q + 1 / 2⌋ : ℤ)
  | .nan => .nan

/-- The conversion `ToNumber` of a numeric property that may be absent:
`undefined` becomes `NaN`. -/
def toNumber : Option JSNum → JSNum
  | some n => n
  | none => .nan

/-- The expression `x || 0` on a numeric property that may be absent. -/
def orZero : Option JSNum → JSNum
  | some n => if n.truthy then n else .fin 0
  | none => .fin 0

/-- The expression `x || []` on an array property that may be absent. -/
def orEmptyArray {α : Type} : Option (List α) → List α
  | some xs => xs
  | none => []

/-- The expression `x || ''` on a string property that may be absent. -/
def orEmptyString : Option String → String
  | some s => if s.data.isEmpty then "" else s
  | none => ""

/-- Substring search on characters: does `pat` occur in the list? -/
def includesChars (pat : List Char) : List Char → Bool
  | [] => pat.isPrefixOf []
  | c :: cs => pat.isPrefixOf (c :: cs) || includesChars pat cs

/-- The method `String.prototype.includes`. -/
def jsIncludes (s search : String) : Bool := includesChars search.data s.data

/-- The method `String.prototype.toLowerCase`, on the ASCII capitals. -/
def toLowerCase (s : String) : String := ⟨s.data.map Char.toLower⟩

/-- The strict comparison `v === 'literal'`. -/
def strictEqStr : JSVal → String → Bool
  | .str s, lit => decide (s = lit)
  | _, _ => false

/-- The call `v.includes(search)` on an arbitrary value: only a string has the
method among the modelled values, anything else throws a `TypeError`. -/
def callIncludes : JSVal → String → Except JSError Bool
  | .str s, search => .ok (jsIncludes s search)
  | _, _ => .error .typeError

/-! ## Data model -/

/-- A target object. Every property may be absent. -/
structure Target where
  signal : Option JSNum := none
  encryption : Option String := none
  clients : Option JSNum := none
  openPorts : Option (List Nat) := none
  vulnerabilities : Option (List String) := none
  os : Option String := none
  domain : Option String := none

/-- Reading a property of the `target` argument: throws when the argument itself
is `undefined` or `null`. -/
def deref : Option Target → Except JSError Target
  | some t => .ok t
  | none => .error .typeError

/-! ## FeasibilityCalculator.js -/

/-- The body of `if (attackType === 'WIFI') {...}`, from the running score. -/
def wifiFactors (target : Option Target) (score : JSNum) : Except JSError JSNum := do
  let t ← deref target
  let signalScore :=
    mathMax (.fin 0) (mathMin (.fin 100)
      ((JSNum.fin 100).sub
        (((mathAbs (toNumber t.signal)).sub (.fin 30)).mul ((JSNum.fin 90).div (.fin 60)))))
  let score := score.add (signalScore.mul (.fin (4 / 10)))
  let score := score.add
    (if t.encryption = some "WPA2" then .fin 30
     else if t.encryption = some "WEP" then .fin 50 else .fin 10)
  let score := score.add (if (orZero t.clients).gt (.fin 0) then .fin 20 else .fin 0)
  pure score

/-- The body of `if (attackType === 'NETWORK') {...}`, from the running score. -/
def networkFactors (target : Option Target) (score : JSNum) : Except JSError JSNum := do
  let t ← deref target
  let score := score.add ((JSNum.fin ((orEmptyArray t.openPorts).length : ℕ)).mul (.fin 5))
  let score := score.add ((JSNum.fin ((orEmptyArray t.vulnerabilities).length : ℕ)).mul (.fin 15))
  let score := score.add
    (if jsIncludes (toLowerCase (orEmptyString t.os)) "windows" then .fin 10 else .fin 0)
  pure score

/-- The function `calculateFeasibility(target, attackType)`. -/
def calculateFeasibility (target : Option Target) (attackType : JSVal) :
    Except JSError JSNum := do
  let score := JSNum.fin 0
  let score ← if strictEqStr attackType "WIFI" then wifiFactors target score else pure score
  let score ← if strictEqStr attackType "NETWORK" then networkFactors target score else pure score
  pure (mathRound (mathMin (.fin 100) (mathMax (.fin 0) score)))

/-! ## SafetyChecks.js -/

/-- The shape of the object `ROE_RULES`. -/
structure RoeRules where
  allowDisruption : Bool
  allowMilitaryTargets : Bool
  allowForeignInfrastructure : Bool
  maxRiskLevel : String
  deriving DecidableEq

/-- The object `ROE_RULES` as the module ships it. -/
def ROE_RULES : RoeRules :=
  { allowDisruption := true
    allowMilitaryTargets := false
    allowForeignInfrastructure := false
    maxRiskLevel := "HIGH" }

/-- The object `checkROECompliance` returns. -/
structure ComplianceResult where
  compliant : Bool
  violations : List String
  deriving DecidableEq

/-- The function `checkROECompliance(action, target)`; `rules` is the object
`ROE_RULES` as it stands when the call is made. -/
def checkROECompliance (rules : RoeRules) (action : JSVal) (target : Option Target) :
    Except JSError ComplianceResult := do
  let violations : List String := []
  let disruptive ← callIncludes action "DEAUTH"
  let violations :=
    if disruptive && !rules.allowDisruption then
      violations ++ ["Disruption attacks (DEAUTH) prohibited by ROE."]
    else violations
  let t ← deref target
  let violations :=
    if jsIncludes (orEmptyString t.domain) ".mil" && !rules.allowMilitaryTargets then
      violations ++ ["Military targets restricted under current ROE."]
    else violations
  pure { compliant := decide (violations.length = 0), violations := violations }

/-- A piece of a template literal: fixed text or an interpolated number. -/
inductive MsgPart where
  | text (s : String)
  | value (n : JSNum)
  deriving DecidableEq

/-- The function `governResponse(intensity, targetValue)`: the returned value and
the messages passed to `console.warn`. -/
def governResponse (intensity targetValue : JSNum) : JSNum × List (List MsgPart) :=
  let MAX_INTENSITY := JSNum.fin 10
  let allowedIntensity := mathMin3 intensity (targetValue.mul (.fin 2)) MAX_INTENSITY
  let warned :=
    if allowedIntensity.lt intensity then
      [[.text "[GOVERNOR] Intensity reduced from ", .value intensity, .text " to ",
        .value allowedIntensity, .text " for proportional response."]]
    else []
  (allowedIntensity, warned)

/-! ## The same functions on untyped arguments -/

/-- Truthiness of a primitive value. -/
def JSVal.truthy : JSVal → Bool
  | .undefined => false
  | .null => false
  | .bool b => b
  | .num n => n.truthy
  | .str s => !s.data.isEmpty
  | .symbol => true
  | .bigint z => decide (z ≠ 0)

/-- The expression `a || b` on primitive values. -/
def JSVal.orElse (a b : JSVal) : JSVal := if a.truthy then a else b

/-- The conversion `ToNumber` of a primitive value: a symbol and a BigInt throw.
The conversion of a string is the built-in `parse`, which is not modelled. -/
def JSVal.toNumber (parse : String → JSNum) : JSVal → Except JSError JSNum
  | .undefined => .ok .nan
  | .null => .ok (.fin 0)
  | .bool b => .ok (.fin (if b then 1 else 0))
  | .num n => .ok n
  | .str s => .ok (parse s)
  | .symbol => .error .typeError
  | .bigint _ => .error .typeError

/-- The comparison `n < x` of a number with a primitive value: a BigInt is compared
by its mathematical value, anything else after `ToNumber`. -/
def JSVal.numLt (parse : String → JSNum) (n : JSNum) : JSVal → Except JSError Bool
  | .bigint z => .ok (n.lt (.fin z))
  | x => do
    let m ← x.toNumber parse
    pure (n.lt m)

/-- The comparison `x > n` of a primitive value with a number. -/
def JSVal.gtNum (parse : String → JSNum) (x : JSVal) (n : JSNum) : Except JSError Bool :=
  JSVal.numLt parse n x

/-- The product `x * n` of a primitive value and a number: a symbol throws, and so
does a BigInt, which cannot be mixed with a number. -/
def JSVal.mulNum (parse : String → JSNum) (x : JSVal) (n : JSNum) : Except JSError JSNum := do
  let m ← x.toNumber parse
  pure (m.mul n)

/-- The call `x.toLowerCase()`: only a string has the method. -/
def callToLowerCase : JSVal → Except JSError String
  | .str s => .ok (toLowerCase s)
  | _ => .error .typeError

/-- The `length` of a string, counted in UTF-16 code units. -/
def utf16Length (s : String) : ℕ :=
  (s.data.map (fun c => if c.val < 65536 then 1 else 2)).sum

/-- A property meant to hold an array: an array, or any primitive value. -/
inductive ListField where
  | prim (v : JSVal)
  | array (xs : List JSVal)

/-- The expression `(x || []).length`: an array and a string have a length, any other
truthy value has none, a falsy value gives way to the empty array. -/
def ListField.lengthOrEmpty : ListField → JSVal
  | .array xs => .num (.fin (xs.length : ℕ))
  | .prim (.str s) => .num (.fin (utf16Length s : ℕ))
  | .prim v => if v.truthy then .undefined else .num (.fin ((0 : ℕ) : ℚ))

/-- A target object whose properties hold arbitrary values; `undefined` is an absent
property. -/
structure RawTarget where
  signal : JSVal := .undefined
  encryption : JSVal := .undefined
  clients : JSVal := .undefined
  openPorts : ListField := .prim .undefined
  vulnerabilities : ListField := .prim .undefined
  os : JSVal := .undefined
  domain : JSVal := .undefined

/-- The `target` argument: a primitive value or an object. -/
inductive TargetArg where
  | prim (v : JSVal)
  | obj (o : RawTarget)

/-- Reading the properties of the `target` argument: `undefined` and `null` throw,
any other primitive value has none of the properties. -/
def TargetArg.read : TargetArg → Except JSError RawTarget
  | .prim .undefined => .error .typeError
  | .prim .null => .error .typeError
  | .prim _ => .ok {}
  | .obj o => .ok o

/-- A piece of a template literal: fixed text or an interpolated value. -/
inductive TemplatePart where
  | text (s : String)
  | value (v : JSVal)
  deriving DecidableEq

namespace Untyped

/-- The body of `if (attackType === 'WIFI') {...}`, from the running score. -/
def wifiFactors (parse : String → JSNum) (target : TargetArg) (score : JSNum) :
    Except JSError JSNum := do
  let t ← target.read
  let signal ← t.signal.toNumber parse
  let signalScore :=
    mathMax (.fin 0) (mathMin (.fin 100)
      ((JSNum.fin 100).sub
        (((mathAbs signal).sub (.fin 30)).mul ((JSNum.fin 90).div (.fin 60)))))
  let score := score.add (signalScore.mul (.fin (4 / 10)))
  let score := score.add
    (if strictEqStr t.encryption "WPA2" then .fin 30
     else if strictEqStr t.encryption "WEP" then .fin 50 else .fin 10)
  let hasClients ← (t.clients.orElse (.num (.fin 0))).gtNum parse (.fin 0)
  let score := score.add (if hasClients then .fin 20 else .fin 0)
  pure score

/-- The body of `if (attackType === 'NETWORK') {...}`, from the running score. -/
def networkFactors (parse : String → JSNum) (target : TargetArg) (score : JSNum) :
    Except JSError JSNum := do
  let t ← target.read
  let ports ← t.openPorts.lengthOrEmpty.mulNum parse (.fin 5)
  let score := score.add ports
  let vulnerabilities ← t.vulnerabilities.lengthOrEmpty.mulNum parse (.fin 15)
  let score := score.add vulnerabilities
  let os ← callToLowerCase (t.os.orElse (.str ""))
  let score := score.add (if jsIncludes os "windows" then .fin 10 else .fin 0)
  pure score

/-- The function `calculateFeasibility(target, attackType)` on untyped arguments. -/
def calculateFeasibility (parse : String → JSNum) (target : TargetArg) (attackType : JSVal) :
    Except JSError JSNum := do
  let score := JSNum.fin 0
  let score ←
    if strictEqStr attackType "WIFI" then wifiFactors parse target score else pure score
  let score ←
    if strictEqStr attackType "NETWORK" then networkFactors parse target score else pure score
  pure (mathRound (mathMin (.fin 100) (mathMax (.fin 0) score)))

/-- The function `checkROECompliance(action, target)` on untyped arguments; `rules`
is the object `ROE_RULES` as it stands when the call is made. -/
def checkROECompliance (rules : RoeRules) (action : JSVal) (target : TargetArg) :
    Except JSError ComplianceResult := do
  let violations : List String := []
  let disruptive ← callIncludes action "DEAUTH"
  let violations :=
    if disruptive && !rules.allowDisruption then
      violations ++ ["Disruption attacks (DEAUTH) prohibited by ROE."]
    else violations
  let t ← target.read
  let military ← callIncludes (t.domain.orElse (.str "")) ".mil"
  let violations :=
    if military && !rules.allowMilitaryTargets then
      violations ++ ["Military targets restricted under current ROE."]
    else violations
  pure { compliant := decide (violations.length = 0), violations := violations }

/-- The function `governResponse(intensity, targetValue)` on untyped arguments: the
returned value and the messages passed to `console.warn`. -/
def governResponse (parse : String → JSNum) (intensity targetValue : JSVal) :
    Except JSError (JSNum × List (List TemplatePart)) := do
  let MAX_INTENSITY := JSNum.fin 10
  let doubled ← targetValue.mulNum parse (.fin 2)
  let requested ← intensity.toNumber parse
  let allowedIntensity := mathMin3 requested doubled MAX_INTENSITY
  let reduced ← intensity.numLt parse allowedIntensity
  let warned :=
    if reduced then
      [[.text "[GOVERNOR] Intensity reduced from ", .value intensity, .text " to ",
        .value (.num allowedIntensity), .text " for proportional response."]]
    else []
  pure (allowedIntensity, warned)

end Untyped

/-- A target of the data model as an untyped object. -/
def Target.toRaw (t : Target) : RawTarget :=
  { signal := match t.signal with
      | some n => .num n
      | none => .undefined
    encryption := match t.encryption with
      | some s => .str s
      | none => .undefined
    clients := match t.clients with
      | some n => .num n
      | none => .undefined
    openPorts := match t.openPorts with
      | some ps => .array (ps.map (fun p => .num (.fin (p : ℕ))))
      | none => .prim .undefined
    vulnerabilities := match t.vulnerabilities with
      | some vs => .array (vs.map (fun v => .str v))
      | none => .prim .undefined
    os := match t.os with
      | some s => .str s
      | none => .undefined
    domain := match t.domain with
      | some s => .str s
      | none => .undefined }

/-- A possibly absent target of the data model as an untyped argument. -/
def toTargetArg : Option Target → TargetArg
  | some t => .obj t.toRaw
  | none => .prim .undefined

/-- A message of the typed `governResponse` as a message of the untyped one. -/
def MsgPart.toTemplate : MsgPart → TemplatePart
  | .text s => .text s
  | .value n => .value (.num n)

/-! ## Vocabulary of the specification -/

/-- The bounding `clamp(x, lo, hi)` of the specification. -/
def clamp (x lo hi : ℚ) : ℚ := max lo (min hi x)

/-- The encryption component of the specification: `WPA2` gives 30, `WEP` gives 50,
anything else gives 10. -/
def encryptionBonus (enc : Option String) : ℚ :=
  if enc = some "WPA2" then 30 else if enc = some "WEP" then 50 else 10

/-- The WIFI score of the specification for signal `s`, encryption component `e`
and client component `c`. -/
def wifiFormula (s e c : ℚ) : ℤ :=
  round (clamp (clamp (100 - (|s| - 30) * 1.5) 0 100 * 0.4 + e + c) 0 100)

/-- The target has associated clients: its client count is a positive number. -/
def Target.hasClients (t : Target) : Prop :=
  ∃ n : ℚ, t.clients = some (.fin n) ∧ 0 < n

instance Target.decidableHasClients (t : Target) : Decidable t.hasClients :=
  match h : t.clients with
  | some (.fin n) =>
    if hn : 0 < n then isTrue ⟨n, h, hn⟩
    else isFalse (fun ⟨m, hm, hpos⟩ => by
      rw [h] at hm
      cases hm
      exact hn hpos)
  | some .nan => isFalse (fun ⟨m, hm, _⟩ => by rw [h] at hm; cases hm)
  | none => isFalse (fun ⟨m, hm, _⟩ => by rw [h] at hm; cases hm)

/-- The client component of the specification: 20 with associated clients, else 0. -/
def clientBonus (t : Target) : ℚ := if t.hasClients then 20 else 0

/-- The text `s` contains `pat`, letters compared without regard to case. -/
def containsIgnoringCase (s pat : String) : Prop :=
  ∃ u : List Char, u <:+: s.data ∧ u.map Char.toLower = pat.data.map Char.toLower

/-- The target has a domain and it contains `pat`. -/
def Target.domainContains (t : Target) (pat : String) : Prop :=
  ∃ d : String, t.domain = some d ∧ pat.data <:+: d.data

instance Target.decidableDomainContains (t : Target) (pat : String) :
    Decidable (t.domainContains pat) :=
  match h : t.domain with
  | some d =>
    if hd : pat.data <:+: d.data then isTrue ⟨d, h, hd⟩
    else isFalse (fun ⟨e, he, hin⟩ => by
      rw [h] at he
      cases he
      exact hd hin)
  | none => isFalse (fun ⟨e, he, _⟩ => by rw [h] at he; cases he)

/-- The values `ToNumber` rejects: a symbol and a BigInt. -/
def JSVal.rejectedByToNumber : JSVal → Bool
  | .symbol => true
  | .bigint _ => true
  | _ => false

/-- The value is a string. -/
def JSVal.isString : JSVal → Bool
  | .str _ => true
  | _ => false

/-- The value is a symbol. -/
def JSVal.isSymbol : JSVal → Bool
  | .symbol => true
  | _ => false

/-- The target argument is `undefined` or `null`. -/
def TargetArg.isNullish : TargetArg → Bool
  | .prim .undefined => true
  | .prim .null => true
  | _ => false

/-- The properties of a target argument: those of the object, none for a primitive
value. -/
def TargetArg.fields : TargetArg → RawTarget
  | .obj o => o
  | .prim _ => {}

/-- The inputs on which `calculateFeasibility` is said to throw: kind `WIFI` with a
null or undefined target, a signal that is a symbol or a BigInt, or a client count
that is a symbol; kind `NETWORK` with a null or undefined target or an `os` that is
truthy and not a string. -/
def feasibilityRejects (target : TargetArg) (k : JSVal) : Bool :=
  (decide (k = .str "WIFI")
    && (target.isNullish || target.fields.signal.rejectedByToNumber
      || target.fields.clients.isSymbol))
  || (decide (k = .str "NETWORK")
    && (target.isNullish || (target.fields.os.truthy && !target.fields.os.isString)))

/-- The inputs on which `checkROECompliance` is said to throw: an action that is not
a string, a null or undefined target, a domain that is truthy and not a string. -/
def complianceRejects (action : JSVal) (target : TargetArg) : Bool :=
  !action.isString || target.isNullish
    || (target.fields.domain.truthy && !target.fields.domain.isString)

/-- The inputs on which `governResponse` is said to throw: an intensity or a target
value that is a symbol or a BigInt. -/
def governRejects (intensity targetValue : JSVal) : Bool :=
  intensity.rejectedByToNumber || targetValue.rejectedByToNumber

/-! ## Intermediate values of the code -/

/-- The score `calculateFeasibility` has accumulated after the WIFI block, for a
finite signal `s`, before the final bounding and rounding. -/
def wifiRaw (t : Target) (s : ℚ) : ℚ :=
  0 + max 0 (min 100 (100 - (|s| - 30) * (3 / 2))) * (4 / 10)
    + encryptionBonus t.encryption + clientBonus t

/-- The score `calculateFeasibility` has accumulated after the NETWORK block, before
the final bounding and rounding. -/
def networkRaw (t : Target) : ℚ :=
  0 + ((orEmptyArray t.openPorts).length : ℕ) * 5
    + ((orEmptyArray t.vulnerabilities).length : ℕ) * 15
    + (if jsIncludes (toLowerCase (orEmptyString t.os)) "windows" then 10 else 0)

/-- The first violation message of `checkROECompliance`. -/
def disruptionMessage : String := "Disruption attacks (DEAUTH) prohibited by ROE."

/-- The second violation message of `checkROECompliance`. -/
def militaryMessage : String := "Military targets restricted under current ROE."

/-! ## Evaluation lemmas -/

@[simp] theorem JSNum.add_fin (a b : ℚ) : (JSNum.fin a).add (.fin b) = .fin (a + b) := rfl

@[simp] theorem JSNum.sub_fin (a b : ℚ) : (JSNum.fin a).sub (.fin b) = .fin (a - b) := rfl

@[simp] theorem JSNum.mul_fin (a b : ℚ) : (JSNum.fin a).mul (.fin b) = .fin (a * b) := rfl

@[simp] theorem JSNum.lt_fin (a b : ℚ) : (JSNum.fin a).lt (.fin b) = decide (a < b) := rfl

@[simp] theorem JSNum.gt_fin (a b : ℚ) : (JSNum.fin a).gt (.fin b) = decide (b < a) := rfl

@[simp] theorem mathAbs_fin (a : ℚ) : mathAbs (.fin a) = .fin |a| := rfl

@[simp] theorem mathMin_fin (a b : ℚ) : mathMin (.fin a) (.fin b) = .fin (min a b) := rfl

@[simp] theorem mathMax_fin (a b : ℚ) : mathMax (.fin a) (.fin b) = .fin (max a b) := rfl

@[simp] theorem mathRound_fin (a : ℚ) : mathRound (.fin a) = .fin (⌊a + 1 / 2⌋ : ℤ) := rfl

theorem JSNum.div_90_60 : (JSNum.fin 90).div (.fin 60) = .fin (3 / 2) := by
  simp [JSNum.div]; norm_num

theorem includesChars_iff (pat s : List Char) : includesChars pat s = true ↔ pat <:+: s := by
  induction s with
  | nil => simp [includesChars]
  | cons c cs ih =>
    rw [includesChars, Bool.or_eq_true, ih, List.isPrefixOf_iff_prefix, List.infix_cons_iff]

theorem jsIncludes_iff (s search : String) :
    jsIncludes s search = true ↔ search.data <:+: s.data :=
  includesChars_iff _ _

theorem orEmptyString_some (s : String) : orEmptyString (some s) = s := by
  cases s with
  | mk d =>
    cases d with
    | nil => rfl
    | cons c cs => rfl

theorem orZero_gt_iff (t : Target) : (orZero t.clients).gt (.fin 0) = true ↔ t.hasClients := by
  unfold Target.hasClients
  cases h : t.clients with
  | none => simp [orZero]
  | some n =>
    cases n with
    | nan => simp [orZero, JSNum.truthy]
    | fin q =>
      by_cases hq : q = 0
      · simp [orZero, JSNum.truthy, hq]
      · simp [orZero, JSNum.truthy, hq]

theorem wifiFactors_fin (t : Target) (s q : ℚ) (hs : t.signal = some (.fin s)) :
    wifiFactors (some t) (.fin q) =
      .ok (.fin (q + max 0 (min 100 (100 - (|s| - 30) * (3 / 2))) * (4 / 10)
        + encryptionBonus t.encryption + clientBonus t)) := by
  have h1 : toNumber t.signal = .fin s := by rw [hs]; rfl
  have h2 : (if (orZero t.clients).gt (.fin 0) then JSNum.fin 20 else JSNum.fin 0)
      = .fin (clientBonus t) := by
    unfold clientBonus
    by_cases hc : t.hasClients
    · rw [if_pos hc, if_pos ((orZero_gt_iff t).2 hc)]
    · rw [if_neg hc, if_neg (fun h => hc ((orZero_gt_iff t).1 h))]
  unfold wifiFactors
  simp only [deref, bind, Except.bind, pure, Except.pure, h1, h2, JSNum.div_90_60,
    encryptionBonus]
  split_ifs <;> simp

theorem networkFactors_fin (t : Target) (q : ℚ) :
    networkFactors (some t) (.fin q) =
      .ok (.fin (q + ((orEmptyArray t.openPorts).length : ℕ) * 5
        + ((orEmptyArray t.vulnerabilities).length : ℕ) * 15
        + (if jsIncludes (toLowerCase (orEmptyString t.os)) "windows" then 10 else 0))) := by
  unfold networkFactors
  simp only [deref, bind, Except.bind, pure, Except.pure]
  split_ifs <;> simp

theorem final_fin (q : ℚ) :
    mathRound (mathMin (.fin 100) (mathMax (.fin 0) (.fin q)))
      = .fin (⌊min 100 (max 0 q) + 1 / 2⌋ : ℤ) := rfl

theorem final_range (q : ℚ) :
    0 ≤ ⌊min 100 (max 0 q) + 1 / 2⌋ ∧ ⌊min 100 (max 0 q) + 1 / 2⌋ ≤ 100 := by
  have h0 : (0 : ℚ) ≤ min 100 (max 0 q) := le_min (by norm_num) (le_max_left 0 q)
  have h1 : min 100 (max 0 q) ≤ (100 : ℚ) := min_le_left _ _
  constructor
  · exact Int.floor_nonneg.2 (by linarith)
  · have : ⌊min 100 (max 0 q) + 1 / 2⌋ < 101 := Int.floor_lt.2 (by push_cast; linarith)
    omega

theorem strictEqStr_iff (k : JSVal) (lit : String) :
    strictEqStr k lit = true ↔ k = .str lit := by
  cases k <;> simp [strictEqStr]

theorem calculateFeasibility_wifi (t : Target) (s : ℚ) (hs : t.signal = some (.fin s)) :
    calculateFeasibility (some t) (.str "WIFI")
      = .ok (.fin (⌊min 100 (max 0 (wifiRaw t s)) + 1 / 2⌋ : ℤ)) := by
  have hw : strictEqStr (.str "WIFI") "WIFI" = true := by decide
  have hn : strictEqStr (.str "WIFI") "NETWORK" = false := by decide
  unfold calculateFeasibility
  simp only [hw, hn, if_true, wifiFactors_fin t s 0 hs, bind, Except.bind, pure, Except.pure,
    final_fin, wifiRaw]
  rfl

theorem calculateFeasibility_network (t : Target) :
    calculateFeasibility (some t) (.str "NETWORK")
      = .ok (.fin (⌊min 100 (max 0 (networkRaw t)) + 1 / 2⌋ : ℤ)) := by
  have hw : strictEqStr (.str "NETWORK") "WIFI" = false := by decide
  have hn : strictEqStr (.str "NETWORK") "NETWORK" = true := by decide
  unfold calculateFeasibility
  simp only [hw, hn, if_true, networkFactors_fin, bind, Except.bind, pure, Except.pure,
    final_fin, networkRaw]
  rfl

theorem calculateFeasibility_other (target : Option Target) (k : JSVal)
    (hw : k ≠ .str "WIFI") (hn : k ≠ .str "NETWORK") :
    calculateFeasibility target k = .ok (.fin ((0 : ℤ) : ℚ)) := by
  have hw2 : strictEqStr k "WIFI" = false := by
    rw [← Bool.not_eq_true, strictEqStr_iff]; exact hw
  have hn2 : strictEqStr k "NETWORK" = false := by
    rw [← Bool.not_eq_true, strictEqStr_iff]; exact hn
  unfold calculateFeasibility
  simp only [hw2, hn2, bind, Except.bind, pure, Except.pure, final_fin]
  norm_num

theorem floor_intCast_add_half (m : ℤ) : ⌊(m : ℚ) + 1 / 2⌋ = m := by
  rw [Int.floor_eq_iff]
  constructor <;> linarith

theorem hasClients_of_pos (t : Target) (n : ℚ) (h : t.clients = some (.fin n)) (hn : 0 < n) :
    clientBonus t = 20 := by
  unfold clientBonus
  exact if_pos ⟨n, h, hn⟩

theorem clientBonus_of_absent (t : Target) (h : t.clients = none) : clientBonus t = 0 := by
  unfold clientBonus
  refine if_neg ?_
  rintro ⟨m, hm, _⟩
  rw [h] at hm
  cases hm

theorem wifiFormula_eq (s e c : ℚ) :
    wifiFormula s e c
      = ⌊min 100 (max 0 (0 + max 0 (min 100 (100 - (|s| - 30) * (3 / 2))) * (4 / 10) + e + c))
          + 1 / 2⌋ := by
  have h1 : (1.5 : ℚ) = 3 / 2 := by norm_num
  have h2 : (0.4 : ℚ) = 4 / 10 := by norm_num
  have h3 : max (0 : ℚ) 100 = 100 := max_eq_right (by norm_num)
  unfold wifiFormula clamp
  rw [round_eq, max_min_distrib_left, h1, h2, h3, zero_add]

theorem infix_map_iff {α β : Type} (f : α → β) (l : List β) (xs : List α) :
    l <:+: xs.map f ↔ ∃ u : List α, u <:+: xs ∧ u.map f = l := by
  constructor
  · rintro ⟨p, q, h⟩
    obtain ⟨pu, q2, h1, h2, h3⟩ := List.map_eq_append_iff.1 h.symm
    obtain ⟨p2, u, h4, h5, h6⟩ := List.map_eq_append_iff.1 h2
    exact ⟨u, ⟨p2, q2, by rw [h1, h4]⟩, h6⟩
  · rintro ⟨u, ⟨p, q, h⟩, rfl⟩
    exact ⟨p.map f, q.map f, by rw [← h]; simp⟩

theorem windows_iff (os : String) :
    jsIncludes (toLowerCase os) "windows" = true ↔ containsIgnoringCase os "windows" := by
  rw [jsIncludes_iff]
  unfold containsIgnoringCase toLowerCase
  have h : "windows".data.map Char.toLower = "windows".data := by decide
  rw [h]
  exact infix_map_iff Char.toLower _ _

theorem domain_iff (t : Target) (pat : String) (hp : pat.data ≠ []) :
    jsIncludes (orEmptyString t.domain) pat = true ↔ t.domainContains pat := by
  unfold Target.domainContains
  cases h : t.domain with
  | none =>
    rw [jsIncludes_iff]
    simp [orEmptyString, hp]
  | some d =>
    rw [orEmptyString_some, jsIncludes_iff]
    simp

theorem encryptionBonus_wpa2 : encryptionBonus (some "WPA2") = 30 := by
  unfold encryptionBonus
  rw [if_pos rfl]

theorem encryptionBonus_wep : encryptionBonus (some "WEP") = 50 := by
  unfold encryptionBonus
  rw [if_neg (by decide), if_pos rfl]

theorem network_final (n : ℕ) :
    ⌊min (100 : ℚ) (max 0 ((n : ℕ) : ℚ)) + 1 / 2⌋ = ((min 100 n : ℕ) : ℤ) := by
  have h : min (100 : ℚ) (max 0 ((n : ℕ) : ℚ)) = (((min 100 n : ℕ) : ℤ) : ℚ) := by
    rw [max_eq_right (Nat.cast_nonneg n)]
    push_cast
    rfl
  rw [h, floor_intCast_add_half]

theorem disruptive_iff (rules : RoeRules) (a : String) :
    (jsIncludes a "DEAUTH" && !rules.allowDisruption) = true
      ↔ ("DEAUTH".data <:+: a.data ∧ rules.allowDisruption = false) := by
  rw [Bool.and_eq_true, jsIncludes_iff]
  simp

theorem military_iff (rules : RoeRules) (t : Target) :
    (jsIncludes (orEmptyString t.domain) ".mil" && !rules.allowMilitaryTargets) = true
      ↔ (t.domainContains ".mil" ∧ rules.allowMilitaryTargets = false) := by
  rw [Bool.and_eq_true, domain_iff t ".mil" (by decide)]
  simp

/-- The violations the two rules of the specification produce, in rule order. -/
theorem checkROECompliance_str (rules : RoeRules) (a : String) (t : Target) :
    checkROECompliance rules (.str a) (some t)
      = .ok
        { compliant := decide
            (((if "DEAUTH".data <:+: a.data ∧ rules.allowDisruption = false
                then [disruptionMessage] else [])
              ++ (if t.domainContains ".mil" ∧ rules.allowMilitaryTargets = false
                then [militaryMessage] else [])).length = 0)
          violations :=
            (if "DEAUTH".data <:+: a.data ∧ rules.allowDisruption = false
              then [disruptionMessage] else [])
            ++ (if t.domainContains ".mil" ∧ rules.allowMilitaryTargets = false
              then [militaryMessage] else []) } := by
  unfold checkROECompliance
  simp only [callIncludes, deref, bind, Except.bind, pure, Except.pure]
  by_cases h1 : "DEAUTH".data <:+: a.data ∧ rules.allowDisruption = false
  · have b1 := (disruptive_iff rules a).2 h1
    by_cases h2 : t.domainContains ".mil" ∧ rules.allowMilitaryTargets = false
    · have b2 := (military_iff rules t).2 h2
      rw [if_pos h1, if_pos h2, if_pos b1, if_pos b2]
      rfl
    · have b2 : ¬ _ := fun h => h2 ((military_iff rules t).1 h)
      rw [if_pos h1, if_neg h2, if_pos b1, if_neg b2]
      rfl
  · have b1 : ¬ _ := fun h => h1 ((disruptive_iff rules a).1 h)
    by_cases h2 : t.domainContains ".mil" ∧ rules.allowMilitaryTargets = false
    · have b2 := (military_iff rules t).2 h2
      rw [if_neg h1, if_pos h2, if_neg b1, if_pos b2]
      rfl
    · have b2 : ¬ _ := fun h => h2 ((military_iff rules t).1 h)
      rw [if_neg h1, if_neg h2, if_neg b1, if_neg b2]
      rfl

theorem wifiRaw_antitone (t₁ t₂ : Target) (s₁ s₂ : ℚ)
    (henc : t₁.encryption = t₂.encryption) (hcl : t₁.hasClients ↔ t₂.hasClients)
    (hle : |s₁| ≤ |s₂|) : wifiRaw t₂ s₂ ≤ wifiRaw t₁ s₁ := by
  have hc : clientBonus t₂ = clientBonus t₁ := by
    unfold clientBonus
    by_cases h : t₁.hasClients
    · rw [if_pos h, if_pos (hcl.1 h)]
    · rw [if_neg h, if_neg (fun h2 => h (hcl.2 h2))]
  have hsig : max (0 : ℚ) (min 100 (100 - (|s₂| - 30) * (3 / 2)))
      ≤ max 0 (min 100 (100 - (|s₁| - 30) * (3 / 2))) :=
    max_le_max (le_refl _) (min_le_min (le_refl _) (by linarith))
  unfold wifiRaw
  rw [hc, henc]
  linarith

theorem final_mono (a b : ℚ) (h : a ≤ b) :
    ⌊min 100 (max 0 a) + 1 / 2⌋ ≤ ⌊min 100 (max 0 b) + 1 / 2⌋ :=
  Int.floor_mono (add_le_add_right (min_le_min (le_refl _) (max_le_max (le_refl _) h)) _)

theorem encryptionBonus_le_wpa2 (enc : Option String) (h : enc ≠ some "WEP") :
    encryptionBonus enc ≤ encryptionBonus (some "WPA2") := by
  rw [encryptionBonus_wpa2]
  unfold encryptionBonus
  split_ifs <;> norm_num

theorem wifiRaw_encryption_mono (t₁ t₂ : Target) (s : ℚ)
    (hcl : t₁.hasClients ↔ t₂.hasClients)
    (hb : encryptionBonus t₂.encryption ≤ encryptionBonus t₁.encryption) :
    wifiRaw t₂ s ≤ wifiRaw t₁ s := by
  have hc : clientBonus t₂ = clientBonus t₁ := by
    unfold clientBonus
    by_cases h : t₁.hasClients
    · rw [if_pos h, if_pos (hcl.1 h)]
    · rw [if_neg h, if_neg (fun h2 => h (hcl.2 h2))]
  unfold wifiRaw
  rw [hc]
  linarith

theorem governResponse_fst (i v : JSNum) :
    (governResponse i v).1 = mathMin3 i (v.mul (.fin 2)) (.fin 10) := rfl

theorem governResponse_fst_fin (i v : ℚ) :
    (governResponse (.fin i) (.fin v)).1 = .fin (min (min i (v * 2)) 10) := rfl

theorem governResponse_snd (i v : JSNum) :
    (governResponse i v).2
      = if (governResponse i v).1.lt i then
          [[.text "[GOVERNOR] Intensity reduced from ", .value i, .text " to ",
            .value (governResponse i v).1, .text " for proportional response."]]
        else [] := rfl

theorem governed_lt_iff (i v : ℚ) : min (min i (v * 2)) 10 < i ↔ min (v * 2) 10 < i := by
  rw [min_assoc, min_lt_iff]
  constructor
  · rintro (h | h)
    · exact absurd h (lt_irrefl i)
    · exact h
  · exact Or.inr

theorem governed_fixed (i v : ℚ) :
    min (min (min (min i (v * 2)) 10) (v * 2)) 10 = min (min i (v * 2)) 10 := by
  have h1 : min (min i (v * 2)) 10 ≤ v * 2 := (min_le_left _ _).trans (min_le_right _ _)
  rw [min_eq_left h1, min_eq_left (min_le_right _ _)]

/-! ## The untyped functions: agreement with the typed ones, and where they throw -/

theorem error_iff_not_ok {α : Type} (r : Except JSError α) :
    r = .error .typeError ↔ ¬ ∃ v, r = .ok v := by
  cases r with
  | error e => cases e; simp
  | ok v => simp

theorem toNumber_of_accepted (parse : String → JSNum) (v : JSVal)
    (h : v.rejectedByToNumber = false) : ∃ n, v.toNumber parse = .ok n := by
  cases v <;> first | exact ⟨_, rfl⟩ | cases h

theorem toNumber_of_rejected (parse : String → JSNum) (v : JSVal)
    (h : v.rejectedByToNumber = true) : v.toNumber parse = .error .typeError := by
  cases v <;> first | rfl | cases h

theorem numLt_of_accepted (parse : String → JSNum) (n : JSNum) (v : JSVal)
    (h : v.isSymbol = false) : ∃ b, v.numLt parse n = .ok b := by
  cases v <;> first | exact ⟨_, rfl⟩ | cases h

theorem orElse_isSymbol (v : JSVal) (n : JSNum) :
    (v.orElse (.num n)).isSymbol = v.isSymbol := by
  unfold JSVal.orElse
  cases v <;> simp [JSVal.truthy, JSVal.isSymbol] <;> split_ifs <;> rfl

theorem lengthOrEmpty_mulNum (parse : String → JSNum) (f : ListField) (n : JSNum) :
    ∃ m, f.lengthOrEmpty.mulNum parse n = .ok m := by
  cases f with
  | array xs => exact ⟨_, rfl⟩
  | prim v =>
    cases v <;> simp only [ListField.lengthOrEmpty] <;> first
      | exact ⟨_, rfl⟩
      | (split_ifs <;> exact ⟨_, rfl⟩)

theorem callToLowerCase_orElse (v : JSVal) :
    (∃ s, callToLowerCase (v.orElse (.str "")) = .ok s)
      ↔ (v.truthy && !v.isString) = false := by
  unfold JSVal.orElse
  cases v <;> simp [JSVal.truthy, JSVal.isString, callToLowerCase] <;>
    (try split_ifs) <;> simp_all [callToLowerCase]

theorem callIncludes_orElse (v : JSVal) (pat : String) :
    (∃ b, callIncludes (v.orElse (.str "")) pat = .ok b)
      ↔ (v.truthy && !v.isString) = false := by
  unfold JSVal.orElse
  cases v <;> simp [JSVal.truthy, JSVal.isString, callIncludes] <;>
    (try split_ifs) <;> simp_all [callIncludes]

theorem isSymbol_eq_true (v : JSVal) (h : v.isSymbol = true) : v = .symbol := by
  cases v <;> first | rfl | cases h

theorem read_of_nullish (target : TargetArg) (h : target.isNullish = true) :
    target.read = .error .typeError := by
  cases target with
  | obj o => cases h
  | prim v => cases v <;> first | rfl | cases h

theorem read_of_not_nullish (target : TargetArg) (h : target.isNullish = false) :
    target.read = .ok target.fields := by
  cases target with
  | obj o => rfl
  | prim v => cases v <;> first | rfl | cases h

theorem untyped_wifiFactors_ok_iff (parse : String → JSNum) (target : TargetArg) (q : JSNum) :
    (∃ v, Untyped.wifiFactors parse target q = .ok v)
      ↔ (target.isNullish || target.fields.signal.rejectedByToNumber
          || target.fields.clients.isSymbol) = false := by
  unfold Untyped.wifiFactors
  cases hnull : target.isNullish
  · rw [read_of_not_nullish target hnull]
    simp only [bind, Except.bind, pure, Except.pure, Bool.false_or]
    cases hs : target.fields.signal.rejectedByToNumber
    · obtain ⟨n, hn⟩ := toNumber_of_accepted parse _ hs
      simp only [hn, Bool.false_or]
      cases hc : target.fields.clients.isSymbol
      · obtain ⟨b, hb⟩ := numLt_of_accepted parse (.fin 0)
          (target.fields.clients.orElse (.num (.fin 0)))
          (by rw [orElse_isSymbol]; exact hc)
        simp [JSVal.gtNum, hb]
      · rw [isSymbol_eq_true _ hc]
        simp [JSVal.orElse, JSVal.truthy, JSVal.gtNum, JSVal.numLt, JSVal.toNumber,
          bind, Except.bind]
    · simp [toNumber_of_rejected parse _ hs]
  · rw [read_of_nullish target hnull]
    simp [bind, Except.bind]

theorem untyped_networkFactors_ok_iff (parse : String → JSNum) (target : TargetArg)
    (q : JSNum) :
    (∃ v, Untyped.networkFactors parse target q = .ok v)
      ↔ (target.isNullish
          || (target.fields.os.truthy && !target.fields.os.isString)) = false := by
  unfold Untyped.networkFactors
  cases hnull : target.isNullish
  · rw [read_of_not_nullish target hnull]
    obtain ⟨p, hp⟩ := lengthOrEmpty_mulNum parse target.fields.openPorts (.fin 5)
    obtain ⟨w, hw⟩ := lengthOrEmpty_mulNum parse target.fields.vulnerabilities (.fin 15)
    simp only [bind, Except.bind, pure, Except.pure, Bool.false_or, hp, hw]
    rw [← callToLowerCase_orElse]
    cases callToLowerCase (target.fields.os.orElse (.str "")) <;> simp
  · rw [read_of_nullish target hnull]
    simp [bind, Except.bind]

theorem untyped_calculateFeasibility_ok_iff (parse : String → JSNum) (target : TargetArg)
    (k : JSVal) :
    (∃ v, Untyped.calculateFeasibility parse target k = .ok v)
      ↔ feasibilityRejects target k = false := by
  unfold Untyped.calculateFeasibility feasibilityRejects
  by_cases hw : k = .str "WIFI"
  · subst hw
    have h1 : strictEqStr (.str "WIFI") "WIFI" = true := by decide
    have h2 : strictEqStr (.str "WIFI") "NETWORK" = false := by decide
    have h3 : decide (JSVal.str "WIFI" = .str "WIFI") = true := by decide
    have h4 : decide (JSVal.str "WIFI" = .str "NETWORK") = false := by decide
    rw [h3, h4, Bool.true_and, Bool.false_and, Bool.or_false,
      ← untyped_wifiFactors_ok_iff parse target (.fin 0)]
    simp only [h1, h2, if_true, bind, Except.bind, pure, Except.pure]
    cases Untyped.wifiFactors parse target (.fin 0) <;> simp
  · by_cases hn : k = .str "NETWORK"
    · subst hn
      have h1 : strictEqStr (.str "NETWORK") "WIFI" = false := by decide
      have h2 : strictEqStr (.str "NETWORK") "NETWORK" = true := by decide
      have h3 : decide (JSVal.str "NETWORK" = .str "WIFI") = false := by decide
      have h4 : decide (JSVal.str "NETWORK" = .str "NETWORK") = true := by decide
      rw [h3, h4, Bool.true_and, Bool.false_and, Bool.false_or,
        ← untyped_networkFactors_ok_iff parse target (.fin 0)]
      simp only [h1, h2, if_true, bind, Except.bind, pure, Except.pure]
      cases Untyped.networkFactors parse target (.fin 0) <;> simp
    · have h1 : strictEqStr k "WIFI" = false := by
        rw [← Bool.not_eq_true, strictEqStr_iff]; exact hw
      have h2 : strictEqStr k "NETWORK" = false := by
        rw [← Bool.not_eq_true, strictEqStr_iff]; exact hn
      simp [h1, h2, hw, hn, bind, Except.bind, pure, Except.pure]

theorem untyped_calculateFeasibility_other (parse : String → JSNum) (target : TargetArg)
    (k : JSVal) (hw : k ≠ .str "WIFI") (hn : k ≠ .str "NETWORK") :
    Untyped.calculateFeasibility parse target k = .ok (.fin 0) := by
  have h1 : strictEqStr k "WIFI" = false := by
    rw [← Bool.not_eq_true, strictEqStr_iff]; exact hw
  have h2 : strictEqStr k "NETWORK" = false := by
    rw [← Bool.not_eq_true, strictEqStr_iff]; exact hn
  unfold Untyped.calculateFeasibility
  simp only [h1, h2, bind, Except.bind, pure, Except.pure, final_fin]
  norm_num

theorem callIncludes_ok_iff (v : JSVal) (pat : String) :
    (∃ b, callIncludes v pat = .ok b) ↔ v.isString = true := by
  cases v <;> simp [callIncludes, JSVal.isString]

theorem untyped_checkROECompliance_ok_iff (rules : RoeRules) (action : JSVal)
    (target : TargetArg) :
    (∃ r, Untyped.checkROECompliance rules action target = .ok r)
      ↔ complianceRejects action target = false := by
  unfold Untyped.checkROECompliance complianceRejects
  cases hact : action.isString
  · have h : ¬ ∃ b, callIncludes action "DEAUTH" = .ok b := by
      rw [callIncludes_ok_iff, hact]; exact Bool.noConfusion
    cases hc : callIncludes action "DEAUTH" with
    | ok b => exact absurd ⟨b, hc⟩ h
    | error e => simp [bind, Except.bind]
  · obtain ⟨b, hb⟩ := (callIncludes_ok_iff action "DEAUTH").2 hact
    simp only [hb, bind, Except.bind, pure, Except.pure, Bool.not_true, Bool.false_or]
    cases hnull : target.isNullish
    · rw [read_of_not_nullish target hnull, Bool.false_or,
        ← callIncludes_orElse target.fields.domain ".mil"]
      cases hm : callIncludes (target.fields.domain.orElse (.str "")) ".mil" with
      | ok m => simp [hm]
      | error e => simp [hm]
    · rw [read_of_nullish target hnull]
      simp

theorem untyped_governResponse_ok_iff (parse : String → JSNum) (intensity targetValue : JSVal) :
    (∃ r, Untyped.governResponse parse intensity targetValue = .ok r)
      ↔ governRejects intensity targetValue = false := by
  unfold Untyped.governResponse governRejects JSVal.mulNum
  cases hv : targetValue.rejectedByToNumber
  · obtain ⟨d, hd⟩ := toNumber_of_accepted parse _ hv
    cases hi : intensity.rejectedByToNumber
    · obtain ⟨n, hn⟩ := toNumber_of_accepted parse _ hi
      have hsym : intensity.isSymbol = false := by
        cases intensity <;> first | rfl | cases hi
      obtain ⟨b, hb⟩ := numLt_of_accepted parse (mathMin3 n (d.mul (.fin 2)) (.fin 10))
        intensity hsym
      simp [hd, hn, hb, bind, Except.bind, pure, Except.pure]
    · simp [hd, toNumber_of_rejected parse _ hi, bind, Except.bind, pure, Except.pure]
  · simp [toNumber_of_rejected parse _ hv, bind, Except.bind]

theorem untyped_wifiFactors_embed (parse : String → JSNum) (target : Option Target)
    (q : JSNum) :
    Untyped.wifiFactors parse (toTargetArg target) q = wifiFactors target q := by
  cases target with
  | none => rfl
  | some t =>
    obtain ⟨sig, enc, cl, ports, vulns, os, dom⟩ := t
    have hsig : (match sig with
        | some n => JSVal.num n
        | none => JSVal.undefined).toNumber parse = .ok (toNumber sig) := by
      cases sig <;> rfl
    have henc : ∀ lit : String, strictEqStr (match enc with
        | some s => JSVal.str s
        | none => JSVal.undefined) lit = decide (enc = some lit) := by
      intro lit
      cases enc <;> simp [strictEqStr]
    have hcl : ((match cl with
        | some n => JSVal.num n
        | none => JSVal.undefined).orElse (.num (.fin 0))).gtNum parse (.fin 0)
          = .ok ((orZero cl).gt (.fin 0)) := by
      cases cl with
      | none => rfl
      | some n =>
        by_cases hn : n.truthy = true
        · simp [JSVal.orElse, JSVal.truthy, orZero, hn]
          rfl
        · simp [JSVal.orElse, JSVal.truthy, orZero, hn]
          rfl
    unfold Untyped.wifiFactors wifiFactors
    simp only [toTargetArg, TargetArg.read, Target.toRaw, deref, bind, Except.bind, pure,
      Except.pure, hsig, henc, hcl, decide_eq_true_eq]

theorem orElse_str_embed (os : Option String) :
    (match os with
      | some s => JSVal.str s
      | none => JSVal.undefined).orElse (.str "") = .str (orEmptyString os) := by
  cases os with
  | none => rfl
  | some s =>
    by_cases hs : s.data.isEmpty = true
    · simp [JSVal.orElse, JSVal.truthy, orEmptyString, hs]
    · simp [JSVal.orElse, JSVal.truthy, orEmptyString, hs]

theorem untyped_networkFactors_embed (parse : String → JSNum) (target : Option Target)
    (q : JSNum) :
    Untyped.networkFactors parse (toTargetArg target) q = networkFactors target q := by
  cases target with
  | none => rfl
  | some t =>
    obtain ⟨sig, enc, cl, ports, vulns, os, dom⟩ := t
    have hp : (match ports with
        | some ps => ListField.array (ps.map (fun p => JSVal.num (.fin (p : ℕ))))
        | none => ListField.prim .undefined).lengthOrEmpty.mulNum parse (.fin 5)
          = .ok ((JSNum.fin ((orEmptyArray ports).length : ℕ)).mul (.fin 5)) := by
      cases ports with
      | none => rfl
      | some ps =>
        simp [ListField.lengthOrEmpty, JSVal.mulNum, JSVal.toNumber, orEmptyArray, bind,
          Except.bind, pure, Except.pure]
    have hv : (match vulns with
        | some vs => ListField.array (vs.map (fun v => JSVal.str v))
        | none => ListField.prim .undefined).lengthOrEmpty.mulNum parse (.fin 15)
          = .ok ((JSNum.fin ((orEmptyArray vulns).length : ℕ)).mul (.fin 15)) := by
      cases vulns with
      | none => rfl
      | some vs =>
        simp [ListField.lengthOrEmpty, JSVal.mulNum, JSVal.toNumber, orEmptyArray, bind,
          Except.bind, pure, Except.pure]
    unfold Untyped.networkFactors networkFactors
    simp only [toTargetArg, TargetArg.read, Target.toRaw, deref, bind, Except.bind, pure,
      Except.pure, hp, hv, orElse_str_embed, callToLowerCase]

/-- The untyped `calculateFeasibility` agrees with the typed one on the targets of
the data model. -/
theorem untyped_calculateFeasibility_embed (parse : String → JSNum) (target : Option Target)
    (k : JSVal) :
    Untyped.calculateFeasibility parse (toTargetArg target) k
      = calculateFeasibility target k := by
  unfold Untyped.calculateFeasibility calculateFeasibility
  simp only [untyped_wifiFactors_embed, untyped_networkFactors_embed]

/-- The untyped `checkROECompliance` agrees with the typed one on the targets of the
data model. -/
theorem untyped_checkROECompliance_embed (rules : RoeRules) (action : JSVal)
    (target : Option Target) :
    Untyped.checkROECompliance rules action (toTargetArg target)
      = checkROECompliance rules action target := by
  unfold Untyped.checkROECompliance checkROECompliance
  cases target with
  | none => rfl
  | some t =>
    obtain ⟨sig, enc, cl, ports, vulns, os, dom⟩ := t
    simp only [toTargetArg, TargetArg.read, Target.toRaw, deref, orElse_str_embed,
      callIncludes, bind, Except.bind, pure, Except.pure]

/-- The untyped `governResponse` agrees with the typed one on numbers. -/
theorem untyped_governResponse_embed (parse : String → JSNum) (i v : JSNum) :
    Untyped.governResponse parse (.num i) (.num v)
      = .ok ((governResponse i v).1,
          (governResponse i v).2.map (fun m => m.map MsgPart.toTemplate)) := by
  unfold Untyped.governResponse governResponse
  simp only [JSVal.mulNum, JSVal.toNumber, JSVal.numLt, bind, Except.bind, pure, Except.pure]
  split_ifs <;> rfl

/-! ## The claims -/

/-- C1: for every attack kind and every target whose signal is a number (a finite
value, not `NaN`), `calculateFeasibility` returns an integer `n` with `0 ≤ n ≤ 100`. -/
theorem calculateFeasibility_range (t : Target) (k : JSVal) (s : ℚ)
    (hs : t.signal = some (.fin s)) :
    ∃ n : ℤ, calculateFeasibility (some t) k = .ok (.fin n) ∧ 0 ≤ n ∧ n ≤ 100 := by
  by_cases hw : k = .str "WIFI"
  · subst hw
    exact ⟨_, calculateFeasibility_wifi t s hs, final_range _⟩
  · by_cases hn : k = .str "NETWORK"
    · subst hn
      exact ⟨_, calculateFeasibility_network t, final_range _⟩
    · exact ⟨0, calculateFeasibility_other _ k hw hn, le_refl _, by norm_num⟩

/-- Witness of C1: the network `Target_WiFi_01` of the dashboard, signal -45. -/
theorem calculateFeasibility_range_witness :
    ({ signal := some (.fin (-45)), encryption := some "WPA2" } : Target).signal
        = some (.fin (-45))
      ∧ ∃ n : ℤ, calculateFeasibility
          (some { signal := some (.fin (-45)), encryption := some "WPA2" }) (.str "WIFI")
            = .ok (.fin n) ∧ 0 ≤ n ∧ n ≤ 100 :=
  ⟨rfl, calculateFeasibility_range _ _ (-45) rfl⟩

/-- C2: for every WIFI target whose signal is an integer `z`, as the data model has
it, `calculateFeasibility` equals
`round(clamp(clamp(100 - (|z| - 30) * 1.5, 0, 100) * 0.4 + e + c, 0, 100))`, with `e`
the encryption component (30 for WPA2, 50 for WEP, 10 otherwise) and `c` the client
component (20 with associated clients, 0 otherwise). On an integer signal every
intermediate value is a multiple of `1/5`, so the exact arithmetic of the embedding
and the double arithmetic of the code round to the same integer. -/
theorem calculateFeasibility_wifi_formula (t : Target) (z : ℤ)
    (hs : t.signal = some (.fin (z : ℚ))) :
    calculateFeasibility (some t) (.str "WIFI")
      = .ok (.fin (wifiFormula (z : ℚ) (encryptionBonus t.encryption) (clientBonus t))) := by
  rw [calculateFeasibility_wifi t (z : ℚ) hs, wifiFormula_eq]
  rfl

/-- Witness of C2, the two examples of the specification: signal -30 with WEP and
clients present scores 100; signal -90 with WPA2 and no clients scores 34. -/
theorem calculateFeasibility_wifi_formula_witness :
    (({ signal := some (.fin ((-30 : ℤ) : ℚ)), encryption := some "WEP",
        clients := some (.fin 1) } : Target).signal = some (.fin ((-30 : ℤ) : ℚ))
      ∧ calculateFeasibility
          (some { signal := some (.fin ((-30 : ℤ) : ℚ)), encryption := some "WEP",
                  clients := some (.fin 1) }) (.str "WIFI")
        = .ok (.fin ((100 : ℤ) : ℚ)))
    ∧ (({ signal := some (.fin ((-90 : ℤ) : ℚ)), encryption := some "WPA2" } : Target).signal
          = some (.fin ((-90 : ℤ) : ℚ))
      ∧ calculateFeasibility
          (some { signal := some (.fin ((-90 : ℤ) : ℚ)), encryption := some "WPA2" })
          (.str "WIFI")
        = .ok (.fin ((34 : ℤ) : ℚ))) := by
  have e30 : ((-30 : ℤ) : ℚ) = -30 := by norm_num
  have e90 : ((-90 : ℤ) : ℚ) = -90 := by norm_num
  refine ⟨⟨rfl, ?_⟩, ⟨rfl, ?_⟩⟩
  · rw [calculateFeasibility_wifi_formula _ (-30) rfl, wifiFormula_eq,
      hasClients_of_pos _ 1 rfl (by norm_num), e30]
    have h : ⌊min (100 : ℚ) (max 0 (0 + max 0 (min 100 (100 - (|(-30 : ℚ)| - 30) * (3 / 2)))
        * (4 / 10) + encryptionBonus (some "WEP") + 20)) + 1 / 2⌋ = 100 := by
      rw [Int.floor_eq_iff]
      norm_num [encryptionBonus_wep, abs_of_neg]
    exact congrArg (fun n : ℤ => Except.ok (JSNum.fin (n : ℚ))) h
  · rw [calculateFeasibility_wifi_formula _ (-90) rfl, wifiFormula_eq,
      clientBonus_of_absent _ rfl, e90]
    have h : ⌊min (100 : ℚ) (max 0 (0 + max 0 (min 100 (100 - (|(-90 : ℚ)| - 30) * (3 / 2)))
        * (4 / 10) + encryptionBonus (some "WPA2") + 0)) + 1 / 2⌋ = 34 := by
      rw [Int.floor_eq_iff]
      norm_num [encryptionBonus_wpa2, abs_of_neg]
    exact congrArg (fun n : ℤ => Except.ok (JSNum.fin (n : ℚ))) h

/-- C3: for every NETWORK target with open ports `ps`, known vulnerabilities `vs` and
operating-system label `os`, `calculateFeasibility` equals
`min(100, 5 * |ps| + 15 * |vs| + w)`, where `w` is 10 if `os` contains "windows"
compared case-insensitively and 0 otherwise. -/
theorem calculateFeasibility_network_formula (t : Target) (ps : List ℕ) (vs : List String)
    (os : String) (w : ℕ)
    (hp : t.openPorts = some ps) (hv : t.vulnerabilities = some vs) (ho : t.os = some os)
    (hw : (containsIgnoringCase os "windows" → w = 10)
      ∧ (¬ containsIgnoringCase os "windows" → w = 0)) :
    calculateFeasibility (some t) (.str "NETWORK")
      = .ok (.fin ((min 100 (5 * ps.length + 15 * vs.length + w) : ℕ) : ℚ)) := by
  have hraw : networkRaw t = ((5 * ps.length + 15 * vs.length + w : ℕ) : ℚ) := by
    unfold networkRaw
    rw [hp, hv, ho, orEmptyString_some]
    simp only [orEmptyArray]
    by_cases hc : containsIgnoringCase os "windows"
    · rw [if_pos ((windows_iff os).2 hc), hw.1 hc]
      push_cast
      ring
    · rw [if_neg (fun h => hc ((windows_iff os).1 h)), hw.2 hc]
      push_cast
      ring
  rw [calculateFeasibility_network, hraw, network_final]
  rfl

/-- Witness of C3, the example of the specification: 3 ports, 2 vulnerabilities and
`Windows Server 2019` score 55. -/
theorem calculateFeasibility_network_formula_witness :
    calculateFeasibility
        (some { openPorts := some [22, 80, 443], vulnerabilities := some ["CVE-A", "CVE-B"],
                os := some "Windows Server 2019" }) (.str "NETWORK")
      = .ok (.fin ((min 100 (5 * 3 + 15 * 2 + 10) : ℕ) : ℚ))
    ∧ (min 100 (5 * 3 + 15 * 2 + 10) : ℕ) = 55 :=
  ⟨calculateFeasibility_network_formula
      { openPorts := some [22, 80, 443], vulnerabilities := some ["CVE-A", "CVE-B"],
        os := some "Windows Server 2019" }
      [22, 80, 443] ["CVE-A", "CVE-B"] "Windows Server 2019" 10 rfl rfl rfl
      ⟨fun _ => rfl, fun h => absurd ((windows_iff "Windows Server 2019").1 (by decide)) h⟩,
    by decide⟩

/-- C4: for every action string, target and policy, the violations are the message
of the disruption rule (action contains "DEAUTH", disruption not allowed) followed by
the message of the military rule (domain contains ".mil", military targets not
allowed), each present exactly when its rule fires; `DEAUTH_FLOOD` against
`enemy.mil` with both permissions off is not compliant and carries both messages
in that order. -/
theorem checkROECompliance_violations :
    (∀ (rules : RoeRules) (a : String) (t : Target),
      ∃ r : ComplianceResult, checkROECompliance rules (.str a) (some t) = .ok r
        ∧ r.violations
          = (if "DEAUTH".data <:+: a.data ∧ rules.allowDisruption = false
              then ["Disruption attacks (DEAUTH) prohibited by ROE."] else [])
            ++ (if t.domainContains ".mil" ∧ rules.allowMilitaryTargets = false
              then ["Military targets restricted under current ROE."] else []))
    ∧ (∀ (foreign : Bool) (risk : String),
        checkROECompliance
            { allowDisruption := false, allowMilitaryTargets := false,
              allowForeignInfrastructure := foreign, maxRiskLevel := risk }
            (.str "DEAUTH_FLOOD") (some { domain := some "enemy.mil" })
          = .ok { compliant := false
                  violations := ["Disruption attacks (DEAUTH) prohibited by ROE.",
                    "Military targets restricted under current ROE."] }) := by
  constructor
  · intro rules a t
    exact ⟨_, checkROECompliance_str rules a t, rfl⟩
  · intro foreign risk
    rfl

/-- C5: for every pair of numbers, negative ones included, `governResponse` returns
exactly `min(intensity, targetValue * 2, 10)`; `governResponse(8, 2) = 4` and
`governResponse(3, 10) = 3`. -/
theorem governResponse_value :
    (∀ i v : ℚ, (governResponse (.fin i) (.fin v)).1 = .fin (min i (min (v * 2) 10)))
    ∧ (governResponse (.fin 8) (.fin 2)).1 = .fin 4
    ∧ (governResponse (.fin 3) (.fin 10)).1 = .fin 3
    ∧ (governResponse (.fin (-7)) (.fin (-2))).1 = .fin (-7) := by
  have h : ∀ i v : ℚ,
      (governResponse (.fin i) (.fin v)).1 = .fin (min i (min (v * 2) 10)) := by
    intro i v
    simp only [governResponse, mathMin3, JSNum.mul_fin, mathMin_fin, min_assoc]
  refine ⟨h, ?_, ?_, ?_⟩
  · rw [h]; norm_num
  · rw [h]; norm_num
  · rw [h]; norm_num

/-- C6 (defect in the code): a WIFI target with no `signal` property scores `NaN`,
not the score of the same target with signal 0, whereas an absent client count,
port list, vulnerability list or OS label does score as 0, empty and the empty
string. -/
theorem calculateFeasibility_absent_signal :
    (∀ t : Target,
      calculateFeasibility (some { t with signal := none }) (.str "WIFI") = .ok .nan)
    ∧ calculateFeasibility
          (some { encryption := some "WPA2", clients := some (.fin 1) }) (.str "WIFI")
        = .ok .nan
    ∧ calculateFeasibility
          (some { signal := some (.fin 0), encryption := some "WPA2",
                  clients := some (.fin 1) }) (.str "WIFI")
        = .ok (.fin ((90 : ℤ) : ℚ))
    ∧ (∀ (t : Target) (k : JSVal),
        calculateFeasibility (some { t with clients := none }) k
          = calculateFeasibility (some { t with clients := some (.fin 0) }) k)
    ∧ (∀ (t : Target) (k : JSVal),
        calculateFeasibility (some { t with openPorts := none }) k
          = calculateFeasibility (some { t with openPorts := some [] }) k)
    ∧ (∀ (t : Target) (k : JSVal),
        calculateFeasibility (some { t with vulnerabilities := none }) k
          = calculateFeasibility (some { t with vulnerabilities := some [] }) k)
    ∧ (∀ (t : Target) (k : JSVal),
        calculateFeasibility (some { t with os := none }) k
          = calculateFeasibility (some { t with os := some "" }) k) := by
  have hnan : ∀ t : Target,
      calculateFeasibility (some { t with signal := none }) (.str "WIFI") = .ok .nan := by
    intro t
    have hw : strictEqStr (.str "WIFI") "WIFI" = true := by decide
    have hn : strictEqStr (.str "WIFI") "NETWORK" = false := by decide
    unfold calculateFeasibility wifiFactors
    simp only [hw, hn, if_true, deref, bind, Except.bind, pure, Except.pure]
    rfl
  refine ⟨hnan, hnan { encryption := some "WPA2", clients := some (.fin 1) },
    ?_, ?_, ?_, ?_, ?_⟩
  · rw [calculateFeasibility_wifi _ 0 rfl]
    have h : ∀ t : Target, t.encryption = some "WPA2" → t.clients = some (.fin 1) →
        ⌊min (100 : ℚ) (max 0 (wifiRaw t 0)) + 1 / 2⌋ = 90 := by
      intro t he hc
      rw [Int.floor_eq_iff]
      unfold wifiRaw
      rw [hasClients_of_pos t 1 hc (by norm_num), he]
      norm_num [encryptionBonus_wpa2]
    exact congrArg (fun n : ℤ => Except.ok (JSNum.fin (n : ℚ))) (h _ rfl rfl)
  · intro t k
    have h : orZero (some (JSNum.fin 0)) = orZero none := by
      simp [orZero, JSNum.truthy]
    unfold calculateFeasibility wifiFactors networkFactors
    simp only [deref, bind, Except.bind, pure, Except.pure, h]
  · intro t k
    rfl
  · intro t k
    rfl
  · intro t k
    rfl

/-- C7, refuted as stated: `checkROECompliance` throws on an absent action, on a
non-string action, on an absent target and on a target whose domain is the number 5;
`calculateFeasibility` throws on an absent target for the kinds `WIFI` and `NETWORK`
and on a target whose `os` is the number 5 for the kind `NETWORK`; `governResponse`
throws on a symbol and on a BigInt. -/
theorem total_on_any_input_counterexample :
    checkROECompliance ROE_RULES .undefined (some { domain := some "example.com" })
        = .error .typeError
    ∧ checkROECompliance ROE_RULES (.num (.fin 7)) (some { domain := some "example.com" })
        = .error .typeError
    ∧ checkROECompliance ROE_RULES (.str "SCAN") none = .error .typeError
    ∧ calculateFeasibility none (.str "WIFI") = .error .typeError
    ∧ calculateFeasibility none (.str "NETWORK") = .error .typeError
    ∧ Untyped.checkROECompliance ROE_RULES (.str "SCAN") (.obj { domain := .num (.fin 5) })
        = .error .typeError
    ∧ Untyped.calculateFeasibility (fun _ => .nan) (.obj { os := .num (.fin 5) })
        (.str "NETWORK") = .error .typeError
    ∧ Untyped.governResponse (fun _ => .nan) .symbol (.num (.fin 2)) = .error .typeError
    ∧ Untyped.governResponse (fun _ => .nan) (.num (.fin 8)) (.bigint 2)
        = .error .typeError := by
  refine ⟨rfl, rfl, rfl, rfl, rfl, ?_, ?_, rfl, rfl⟩
  · rw [error_iff_not_ok, untyped_checkROECompliance_ok_iff]
    simp [complianceRejects, TargetArg.fields, TargetArg.isNullish, JSVal.isString,
      JSVal.truthy, JSNum.truthy]
  · rw [error_iff_not_ok, untyped_calculateFeasibility_ok_iff]
    simp [feasibilityRejects, TargetArg.fields, TargetArg.isNullish, JSVal.isString,
      JSVal.truthy, JSNum.truthy]

/-- C7, amended: over primitive values as arguments and as properties, each function
returns an ordinary result exactly on the inputs described below and throws a
`TypeError` on the others. `calculateFeasibility` throws only for the kind `WIFI` with
a null or undefined target, a signal that is a symbol or a BigInt or a client count
that is a symbol, and for the kind `NETWORK` with a null or undefined target or an
`os` that is truthy and not a string; with any other kind it returns 0 whatever the
target. `checkROECompliance` returns exactly when the action is a string, the target
is neither null nor undefined and the domain is falsy or a string. `governResponse`
returns exactly when neither argument is a symbol or a BigInt. On a target of the
data model, present, both scoring functions return. -/
theorem returns_exactly_when_accepted :
    (∀ (parse : String → JSNum) (target : TargetArg) (k : JSVal),
      ((∃ v, Untyped.calculateFeasibility parse target k = .ok v)
          ↔ feasibilityRejects target k = false)
      ∧ (Untyped.calculateFeasibility parse target k = .error .typeError
          ↔ feasibilityRejects target k = true))
    ∧ (∀ (parse : String → JSNum) (target : TargetArg) (k : JSVal),
        k = .str "WIFI" ∨ k = .str "NETWORK"
          ∨ Untyped.calculateFeasibility parse target k = .ok (.fin 0))
    ∧ (∀ (rules : RoeRules) (action : JSVal) (target : TargetArg),
      ((∃ r, Untyped.checkROECompliance rules action target = .ok r)
          ↔ complianceRejects action target = false)
      ∧ (Untyped.checkROECompliance rules action target = .error .typeError
          ↔ complianceRejects action target = true))
    ∧ (∀ (parse : String → JSNum) (intensity targetValue : JSVal),
      ((∃ r, Untyped.governResponse parse intensity targetValue = .ok r)
          ↔ governRejects intensity targetValue = false)
      ∧ (Untyped.governResponse parse intensity targetValue = .error .typeError
          ↔ governRejects intensity targetValue = true))
    ∧ (∀ (t : Target) (k : JSVal), ∃ v : JSNum, calculateFeasibility (some t) k = .ok v)
    ∧ (∀ (rules : RoeRules) (a : String) (t : Target),
        ∃ r : ComplianceResult, checkROECompliance rules (.str a) (some t) = .ok r) := by
  refine ⟨?_, ?_, ?_, ?_, ?_, ?_⟩
  · intro parse target k
    refine ⟨untyped_calculateFeasibility_ok_iff parse target k, ?_⟩
    rw [error_iff_not_ok, untyped_calculateFeasibility_ok_iff, Bool.not_eq_false]
  · intro parse target k
    by_cases hw : k = .str "WIFI"
    · exact Or.inl hw
    · by_cases hn : k = .str "NETWORK"
      · exact Or.inr (Or.inl hn)
      · exact Or.inr (Or.inr (untyped_calculateFeasibility_other parse target k hw hn))
  · intro rules action target
    refine ⟨untyped_checkROECompliance_ok_iff rules action target, ?_⟩
    rw [error_iff_not_ok, untyped_checkROECompliance_ok_iff, Bool.not_eq_false]
  · intro parse intensity targetValue
    refine ⟨untyped_governResponse_ok_iff parse intensity targetValue, ?_⟩
    rw [error_iff_not_ok, untyped_governResponse_ok_iff, Bool.not_eq_false]
  · intro t k
    unfold calculateFeasibility wifiFactors networkFactors
    simp only [deref, bind, Except.bind, pure, Except.pure]
    split_ifs <;> exact ⟨_, rfl⟩
  · intro rules a t
    exact ⟨_, checkROECompliance_str rules a t⟩

/-- Witness of C7 as amended: `calculateFeasibility(undefined, 'BLUETOOTH')` is
accepted and returns; `checkROECompliance('SCAN', {})`, with no domain, is accepted
and returns; `governResponse('8', true)` is accepted and returns. -/
theorem returns_exactly_when_accepted_witness :
    (feasibilityRejects (.prim .undefined) (.str "BLUETOOTH") = false
      ∧ ∃ v, Untyped.calculateFeasibility (fun _ => .nan) (.prim .undefined)
          (.str "BLUETOOTH") = .ok v)
    ∧ (complianceRejects (.str "SCAN") (.obj {}) = false
      ∧ ∃ r, Untyped.checkROECompliance ROE_RULES (.str "SCAN") (.obj {}) = .ok r)
    ∧ (governRejects (.str "8") (.bool true) = false
      ∧ ∃ r, Untyped.governResponse (fun _ => .fin 8) (.str "8") (.bool true) = .ok r) :=
  ⟨⟨by decide, (returns_exactly_when_accepted.1 _ _ _).1.2 (by decide)⟩,
    ⟨by decide, (returns_exactly_when_accepted.2.2.1 _ _ _).1.2 (by decide)⟩,
    ⟨by decide, (returns_exactly_when_accepted.2.2.2.1 _ _ _).1.2 (by decide)⟩⟩

/-- C8: for two WIFI targets that agree on encryption and on client presence and
have numeric signals with `|s₁| ≤ |s₂|`, the second scores at most what the first
scores, rounding and bounding included. The claim's bound `30 ≤ |s₁|` is not needed:
below 30 the signal component stays at its ceiling. -/
theorem calculateFeasibility_signal_antitone (t₁ t₂ : Target) (s₁ s₂ : ℚ)
    (hs₁ : t₁.signal = some (.fin s₁)) (hs₂ : t₂.signal = some (.fin s₂))
    (henc : t₁.encryption = t₂.encryption) (hcl : t₁.hasClients ↔ t₂.hasClients)
    (hle : |s₁| ≤ |s₂|) :
    ∃ n₁ n₂ : ℤ, calculateFeasibility (some t₁) (.str "WIFI") = .ok (.fin n₁)
      ∧ calculateFeasibility (some t₂) (.str "WIFI") = .ok (.fin n₂)
      ∧ n₂ ≤ n₁ :=
  ⟨_, _, calculateFeasibility_wifi t₁ s₁ hs₁, calculateFeasibility_wifi t₂ s₂ hs₂,
    final_mono _ _ (wifiRaw_antitone t₁ t₂ s₁ s₂ henc hcl hle)⟩

/-- Witness of C8: the two networks of the dashboard, signals -45 and -80, both
WPA2 with no client count. -/
theorem calculateFeasibility_signal_antitone_witness :
    (30 : ℚ) ≤ |(-45 : ℚ)| ∧ |(-45 : ℚ)| ≤ |(-80 : ℚ)|
    ∧ ∃ n₁ n₂ : ℤ,
      calculateFeasibility
          (some { signal := some (.fin (-45)), encryption := some "WPA2" }) (.str "WIFI")
        = .ok (.fin n₁)
      ∧ calculateFeasibility
          (some { signal := some (.fin (-80)), encryption := some "WPA2" }) (.str "WIFI")
        = .ok (.fin n₂)
      ∧ n₂ ≤ n₁ :=
  ⟨by norm_num [abs_of_neg], by norm_num [abs_of_neg],
    calculateFeasibility_signal_antitone
      { signal := some (.fin (-45)), encryption := some "WPA2" }
      { signal := some (.fin (-80)), encryption := some "WPA2" }
      (-45) (-80) rfl rfl rfl Iff.rfl (by norm_num [abs_of_neg])⟩

/-- C9: whenever `checkROECompliance` returns, under any policy, the `compliant`
flag is true exactly when the violations sequence is empty. -/
theorem checkROECompliance_compliant_iff (rules : RoeRules) (action : JSVal)
    (target : Option Target) (r : ComplianceResult)
    (h : checkROECompliance rules action target = .ok r) :
    r.compliant = true ↔ r.violations = [] := by
  cases action with
  | str a =>
    cases target with
    | none => cases h
    | some t =>
      rw [checkROECompliance_str] at h
      cases h
      simp only [decide_eq_true_eq, List.length_eq_zero]
  | undefined => cases h
  | null => cases h
  | bool b => cases h
  | num n => cases h
  | symbol => cases h
  | bigint z => cases h

/-- Witness of C9: `DEAUTH_FLOOD` against `enemy.mil` under the shipped rules
returns a non-compliant result with one violation. -/
theorem checkROECompliance_compliant_iff_witness :
    checkROECompliance ROE_RULES (.str "DEAUTH_FLOOD") (some { domain := some "enemy.mil" })
        = .ok { compliant := false
                violations := ["Military targets restricted under current ROE."] }
    ∧ ((false = true) ↔ ["Military targets restricted under current ROE."] = []) :=
  ⟨rfl, checkROECompliance_compliant_iff ROE_RULES (.str "DEAUTH_FLOOD")
    (some { domain := some "enemy.mil" })
    { compliant := false, violations := ["Military targets restricted under current ROE."] }
    rfl⟩

/-- C10: under the shipped `ROE_RULES`, for every action string and every target
whose domain does not contain ".mil" or is absent, `checkROECompliance` returns
`{compliant: true, violations: []}`. -/
theorem checkROECompliance_default_compliant (a : String) (t : Target)
    (hd : ¬ t.domainContains ".mil") :
    checkROECompliance ROE_RULES (.str a) (some t)
      = .ok { compliant := true, violations := [] } := by
  have h1 : ¬ ("DEAUTH".data <:+: a.data ∧ ROE_RULES.allowDisruption = false) :=
    fun h => absurd h.2 (by decide)
  have h2 : ¬ (t.domainContains ".mil" ∧ ROE_RULES.allowMilitaryTargets = false) :=
    fun h => hd h.1
  rw [checkROECompliance_str, if_neg h1, if_neg h2]
  rfl

/-- Witness of C10, the example of the specification: `SCAN` against `example.com`. -/
theorem checkROECompliance_default_compliant_witness :
    ¬ ({ domain := some "example.com" } : Target).domainContains ".mil"
    ∧ checkROECompliance ROE_RULES (.str "SCAN") (some { domain := some "example.com" })
        = .ok { compliant := true, violations := [] } :=
  ⟨by decide, checkROECompliance_default_compliant "SCAN" { domain := some "example.com" }
    (by decide)⟩

/-- C11: for every target, present or not, and every attack kind other than `WIFI`
and `NETWORK`, `calculateFeasibility` returns 0. -/
theorem calculateFeasibility_unknown_kind (target : Option Target) (k : JSVal)
    (hw : k ≠ .str "WIFI") (hn : k ≠ .str "NETWORK") :
    calculateFeasibility target k = .ok (.fin 0) := by
  rw [calculateFeasibility_other target k hw hn, Int.cast_zero]

/-- Witness of C11: the kind `BLUETOOTH` against the gateway host of the lateral
movement panel. -/
theorem calculateFeasibility_unknown_kind_witness :
    JSVal.str "BLUETOOTH" ≠ .str "WIFI" ∧ JSVal.str "BLUETOOTH" ≠ .str "NETWORK"
    ∧ calculateFeasibility
        (some { signal := some (.fin (-45)), encryption := some "WEP", os := some "Linux" })
        (.str "BLUETOOTH") = .ok (.fin 0) :=
  ⟨by decide, by decide, calculateFeasibility_unknown_kind _ _ (by decide) (by decide)⟩

/-- C12: `governResponse` passes one message to `console.warn` exactly when its result
is strictly less than the requested intensity, that is when
`intensity > min(targetValue * 2, 10)`; the message carries the requested and the
allowed intensity; otherwise nothing is emitted; the returned value is
`min(intensity, targetValue * 2, 10)` either way. `governResponse(8, 2)` reports
8 to 4 and `governResponse(3, 10)` reports nothing. -/
theorem governResponse_warning :
    (∀ i v : JSNum,
      (governResponse i v).2
        = if (governResponse i v).1.lt i then
            [[.text "[GOVERNOR] Intensity reduced from ", .value i, .text " to ",
              .value (governResponse i v).1, .text " for proportional response."]]
          else [])
    ∧ (∀ i v : ℚ, (governResponse (.fin i) (.fin v)).2 ≠ []
        ↔ ∃ r : ℚ, (governResponse (.fin i) (.fin v)).1 = .fin r ∧ r < i)
    ∧ (∀ i v : ℚ, (governResponse (.fin i) (.fin v)).2 ≠ [] ↔ min (v * 2) 10 < i)
    ∧ (∀ i v : JSNum, (governResponse i v).1 = mathMin3 i (v.mul (.fin 2)) (.fin 10))
    ∧ governResponse (.fin 8) (.fin 2)
        = (.fin 4, [[.text "[GOVERNOR] Intensity reduced from ", .value (.fin 8),
            .text " to ", .value (.fin 4), .text " for proportional response."]])
    ∧ governResponse (.fin 3) (.fin 10) = (.fin 3, []) := by
  have hiff : ∀ i v : ℚ,
      (governResponse (.fin i) (.fin v)).2 ≠ [] ↔ min (min i (v * 2)) 10 < i := by
    intro i v
    rw [governResponse_snd, governResponse_fst_fin, JSNum.lt_fin]
    by_cases h : min (min i (v * 2)) 10 < i
    · simp [h]
    · simp [h]
  have h82 : (governResponse (.fin 8) (.fin 2)).1 = .fin 4 := by
    rw [governResponse_fst_fin]; norm_num
  have h310 : (governResponse (.fin 3) (.fin 10)).1 = .fin 3 := by
    rw [governResponse_fst_fin]; norm_num
  refine ⟨governResponse_snd, ?_, ?_, governResponse_fst, ?_, ?_⟩
  · intro i v
    rw [hiff]
    constructor
    · intro h
      exact ⟨_, governResponse_fst_fin i v, h⟩
    · rintro ⟨r, hr, hlt⟩
      rw [governResponse_fst_fin] at hr
      cases hr
      exact hlt
  · intro i v
    rw [hiff, governed_lt_iff]
  · refine Prod.ext h82 ?_
    rw [governResponse_snd, h82, JSNum.lt_fin]
    norm_num
  · refine Prod.ext h310 ?_
    rw [governResponse_snd, h310, JSNum.lt_fin]
    norm_num

/-- C13: for every numeric signal and client presence, three WIFI targets that differ
only in encryption score in the order `WEP` ≥ `WPA2` ≥ any other value, `OPEN` and an
absent encryption included. Only `enc ≠ WEP` is needed of the third value. -/
theorem calculateFeasibility_encryption_order (t : Target) (s : ℚ) (enc : Option String)
    (hs : t.signal = some (.fin s)) (henc : enc ≠ some "WEP") :
    ∃ nWep nWpa2 nOther : ℤ,
      calculateFeasibility (some { t with encryption := some "WEP" }) (.str "WIFI")
          = .ok (.fin nWep)
      ∧ calculateFeasibility (some { t with encryption := some "WPA2" }) (.str "WIFI")
          = .ok (.fin nWpa2)
      ∧ calculateFeasibility (some { t with encryption := enc }) (.str "WIFI")
          = .ok (.fin nOther)
      ∧ nOther ≤ nWpa2 ∧ nWpa2 ≤ nWep := by
  refine ⟨_, _, _, calculateFeasibility_wifi _ s hs, calculateFeasibility_wifi _ s hs,
    calculateFeasibility_wifi _ s hs, ?_, ?_⟩
  · exact final_mono _ _ (wifiRaw_encryption_mono _ _ s Iff.rfl
      (encryptionBonus_le_wpa2 enc henc))
  · refine final_mono _ _ (wifiRaw_encryption_mono _ _ s Iff.rfl ?_)
    show encryptionBonus (some "WPA2") ≤ encryptionBonus (some "WEP")
    rw [encryptionBonus_wpa2, encryptionBonus_wep]
    norm_num

/-- Witness of C13: the dashboard network at signal -45, with `OPEN` as the third
encryption value. -/
theorem calculateFeasibility_encryption_order_witness :
    ({ signal := some (.fin (-45)) } : Target).signal = some (.fin (-45))
    ∧ (some "OPEN" : Option String) ≠ some "WEP"
    ∧ ∃ nWep nWpa2 nOther : ℤ,
      calculateFeasibility
          (some { signal := some (.fin (-45)), encryption := some "WEP" }) (.str "WIFI")
          = .ok (.fin nWep)
      ∧ calculateFeasibility
          (some { signal := some (.fin (-45)), encryption := some "WPA2" }) (.str "WIFI")
          = .ok (.fin nWpa2)
      ∧ calculateFeasibility
          (some { signal := some (.fin (-45)), encryption := some "OPEN" }) (.str "WIFI")
          = .ok (.fin nOther)
      ∧ nOther ≤ nWpa2 ∧ nWpa2 ≤ nWep :=
  ⟨rfl, by decide,
    calculateFeasibility_encryption_order { signal := some (.fin (-45)) } (-45)
      (some "OPEN") rfl (by decide)⟩

/-- C14: under the shipped `ROE_RULES` the result of `checkROECompliance` is the same
for any two action strings, on every target and on an absent one; on a present
target the disruption message is never among the violations and there is at most
one violation. -/
theorem checkROECompliance_action_independent :
    (∀ (a₁ a₂ : String) (target : Option Target),
      checkROECompliance ROE_RULES (.str a₁) target
        = checkROECompliance ROE_RULES (.str a₂) target)
    ∧ (∀ (a : String) (t : Target),
        ∃ r : ComplianceResult, checkROECompliance ROE_RULES (.str a) (some t) = .ok r
          ∧ "Disruption attacks (DEAUTH) prohibited by ROE." ∉ r.violations
          ∧ r.violations.length ≤ 1) := by
  have hno : ∀ a : String,
      ¬ ("DEAUTH".data <:+: a.data ∧ ROE_RULES.allowDisruption = false) :=
    fun a h => absurd h.2 (by decide)
  constructor
  · intro a₁ a₂ target
    cases target with
    | none => rfl
    | some t =>
      rw [checkROECompliance_str, checkROECompliance_str, if_neg (hno a₁), if_neg (hno a₂)]
  · intro a t
    refine ⟨_, checkROECompliance_str ROE_RULES a t, ?_, ?_⟩
    · rw [if_neg (hno a)]
      by_cases h2 : t.domainContains ".mil" ∧ ROE_RULES.allowMilitaryTargets = false
      · rw [if_pos h2]
        decide
      · rw [if_neg h2]
        simp
    · rw [if_neg (hno a)]
      by_cases h2 : t.domainContains ".mil" ∧ ROE_RULES.allowMilitaryTargets = false
      · rw [if_pos h2]
        decide
      · rw [if_neg h2]
        decide

/-- C15: `governResponse` is idempotent in its intensity argument: applied to its own
result with the same target value it returns that result again, and this second
application passes nothing to `console.warn`. -/
theorem governResponse_idempotent (i v : JSNum) :
    (governResponse (governResponse i v).1 v).1 = (governResponse i v).1
    ∧ (governResponse (governResponse i v).1 v).2 = [] := by
  cases i with
  | nan =>
    cases v with
    | nan => exact ⟨rfl, rfl⟩
    | fin b => exact ⟨rfl, rfl⟩
  | fin a =>
    cases v with
    | nan => exact ⟨rfl, rfl⟩
    | fin b =>
      constructor
      · rw [governResponse_fst_fin, governResponse_fst_fin, governed_fixed]
      · rw [governResponse_snd, governResponse_fst_fin, governResponse_fst_fin,
          governed_fixed, JSNum.lt_fin]
        simp

end WarRoom
